import Mathlib

/-!
Verification of the NMT_BERT fusion-transformer repository.

Tensors are shallowly embedded as nested lists: a token-id tensor of shape
(batch, L) is a `List (List Int)`; boolean mask tensors keep their full
broadcast shape as nested lists of `Bool`. Hidden-state arithmetic (the
weighted residual fusion) is modelled elementwise over `Rat`, with the
attention / feed-forward / normalization submodules of each layer kept as
opaque function parameters, exactly mirroring the module structure of
`model/fused.py`. Fallible Python behaviour (assertion failures, missing
attributes, arity errors, out-of-bounds indexing) is modelled with
`Except String`.
-/

namespace NMTBert

/- ------------------------------------------------------------------ -/
/- FusedModel.pad_mask, dec_mask, shift_right (model/fused.py 141-157) -/
/- ------------------------------------------------------------------ -/

/-- Translation of `FusedModel.pad_mask` (model/fused.py lines 141-142):
`(x != self.pad_id).unsqueeze(1).unsqueeze(2)` turns a (batch, L) id tensor
into a boolean tensor of shape (batch, 1, 1, L). -/
def pad_mask (pad_id : Int) (x : List (List Int)) : List (List (List (List Bool))) :=
  x.map fun row => [[row.map fun t => decide (t ≠ pad_id)]]

/-- Translation of `torch.triu(torch.ones((1, L, L)), diagonal=1) == 0`
(model/fused.py line 148), dropping the leading broadcast dimension of size 1:
entry (i, j) is `true` iff j ≤ i. -/
def subsequent_mask (seq_len : Nat) : List (List Bool) :=
  (List.range seq_len).map fun i => (List.range seq_len).map fun j => decide (j ≤ i)

/-- Broadcast elementwise AND of a (B, 1, 1, L) tensor with an (L, L) tensor,
as performed by `&` at model/fused.py line 149: the result has shape
(B, 1, L, L) with entry (b, 0, i, j) = padm[b][0][0][j] && sub[i][j]. -/
def broadcastAnd (padm : List (List (List (List Bool)))) (sub : List (List Bool)) :
    List (List (List (List Bool))) :=
  padm.map fun pb => [sub.map fun subRow => List.zipWith and pb.headI.headI subRow]

/-- Translation of `FusedModel.dec_mask` (model/fused.py lines 145-149):
`self.pad_mask(x) & subsequent_mask` with `seq_len = x.size(-1)`. -/
def dec_mask (pad_id : Int) (x : List (List Int)) : List (List (List (List Bool))) :=
  let seq_len := x.headI.length
  broadcastAnd (pad_mask pad_id x) (subsequent_mask seq_len)

/-- Translation of `FusedModel.shift_right` (model/fused.py lines 153-157):
`shifted = labels.new_zeros(...); shifted[:, 1:] = labels[:, :-1];
shifted[:, 0] = pad_id`. For a nonempty row this yields the pad id followed by
the row without its last element. -/
def shift_right (pad_id : Int) (labels : List (List Int)) : List (List Int) :=
  labels.map fun row =>
    match row with
    | [] => []
    | _ :: _ => pad_id :: row.dropLast

/- ------------------------------------------------------------------ -/
/- Sublayer, EncoderLayer, DecoderLayer (model/fused.py 12-88)         -/
/- ------------------------------------------------------------------ -/

/-- Translation of `Sublayer.__init__` (model/fused.py lines 12-16): a layer
norm and a dropout. Hidden states are modelled elementwise over `Rat`, and
norm and dropout are kept as opaque functions. -/
structure SublayerM where
  norm : Rat → Rat
  dropout : Rat → Rat

/-- Translation of `Sublayer.forward` (model/fused.py lines 18-19):
`dropout(sublayer(norm(x)))`; the residual addition is left to the caller. -/
def SublayerM.forward (s : SublayerM) (x : Rat) (sublayer : Rat → Rat) : Rat :=
  s.dropout (sublayer (s.norm x))

/-- Translation of `EncoderLayer.__init__` (model/fused.py lines 24-33): two
multi-head attention modules, a position-wise feed-forward module and three
sublayer wrappers. Attention modules are opaque functions of query, key,
value and the mask. -/
structure EncoderLayerM where
  self_attn : Rat → Rat → Rat → Bool → Rat
  bert_attn : Rat → Rat → Rat → Bool → Rat
  pff : Rat → Rat
  s_sublayer : SublayerM
  b_sublayer : SublayerM
  p_sublayer : SublayerM

/-- The fusion stage of `EncoderLayer.forward` (model/fused.py lines 36-43):
the bert branch and the self branch are both applied to the same pre-fusion
x, and the result is `residual + s * 0.5 + b * 0.5`. -/
def EncoderLayerM.fusion (l : EncoderLayerM) (x : Rat) (mask : Bool) (bert_out : Rat) : Rat :=
  let b := bert_out
  let residual := x
  let b := l.b_sublayer.forward x fun x => l.bert_attn x b b mask
  let s := l.s_sublayer.forward x fun x => l.self_attn x x x mask
  residual + s * (1 / 2) + b * (1 / 2)

/-- Translation of `EncoderLayer.forward` (model/fused.py lines 36-48): the
fusion stage followed by the position-wise feed-forward residual block. -/
def EncoderLayerM.forward (l : EncoderLayerM) (x : Rat) (mask : Bool) (bert_out : Rat) : Rat :=
  let x := l.fusion x mask bert_out
  let residual := x
  let x2 := l.p_sublayer.forward x l.pff
  residual + x2

/-- The encoder layer with the self branch output forced to zero (its
sublayer dropout returns 0, so the wrapped branch output is 0). -/
def EncoderLayerM.zeroSelf (l : EncoderLayerM) : EncoderLayerM :=
  { l with s_sublayer := { norm := l.s_sublayer.norm, dropout := fun _ => 0 } }

/-- The encoder layer with the bert branch output forced to zero. -/
def EncoderLayerM.zeroBert (l : EncoderLayerM) : EncoderLayerM :=
  { l with b_sublayer := { norm := l.b_sublayer.norm, dropout := fun _ => 0 } }

/-- Translation of `DecoderLayer.__init__` (model/fused.py lines 54-65):
three attention modules (self, bert, encoder-decoder), a feed-forward module
and four sublayer wrappers. -/
structure DecoderLayerM where
  self_attn : Rat → Rat → Rat → Bool → Rat
  bert_attn : Rat → Rat → Rat → Bool → Rat
  enc_dec_attn : Rat → Rat → Rat → Bool → Rat
  pff : Rat → Rat
  s_sublayer : SublayerM
  b_sublayer : SublayerM
  e_sublayer : SublayerM
  p_sublayer : SublayerM

/-- Translation of `DecoderLayer.forward` (model/fused.py lines 68-88)
exactly as written in the source: self-attention block with full residual,
then the two fused cross-attention branches, then the feed-forward block.
Line 81 computes the encoder-memory branch e with `self.b_sublayer` and
`self.bert_attn`; the modules `enc_dec_attn` and `e_sublayer` constructed in
`__init__` are never used. -/
def DecoderLayerM.forward (l : DecoderLayerM) (x memory : Rat) (e_mask d_mask : Bool)
    (bert_out : Rat) : Rat :=
  let m := memory
  let b := bert_out
  let residual := x
  let s := l.s_sublayer.forward x fun x => l.self_attn x x x d_mask
  let x := residual + s
  let residual := x
  let b := l.b_sublayer.forward x fun x => l.bert_attn x b b e_mask
  let e := l.b_sublayer.forward x fun x => l.bert_attn x m m e_mask
  let x := residual + b * (1 / 2) + e * (1 / 2)
  let residual := x
  let x2 := l.p_sublayer.forward x l.pff
  residual + x2

/-- Modelled from the spec (section 4.5, steps 1-6): the claimed decoder
layer forward, in which the encoder-memory branch e is computed with the
dedicated `enc_dec_attn` module wrapped by its own `e_sublayer`; identical to
`DecoderLayerM.forward` in every other respect. -/
def DecoderLayerM.forwardSpec (l : DecoderLayerM) (x memory : Rat) (e_mask d_mask : Bool)
    (bert_out : Rat) : Rat :=
  let m := memory
  let b := bert_out
  let residual := x
  let s := l.s_sublayer.forward x fun x => l.self_attn x x x d_mask
  let x := residual + s
  let residual := x
  let b := l.b_sublayer.forward x fun x => l.bert_attn x b b e_mask
  let e := l.e_sublayer.forward x fun x => l.enc_dec_attn x m m e_mask
  let x := residual + b * (1 / 2) + e * (1 / 2)
  let residual := x
  let x2 := l.p_sublayer.forward x l.pff
  residual + x2

/-- Sublayer wrapper whose norm and dropout are both the identity. -/
def idSublayer : SublayerM := { norm := id, dropout := id }

/-- A concrete decoder layer whose `enc_dec_attn` differs from `bert_attn`. -/
def sampleDecoderLayer : DecoderLayerM :=
  { self_attn := fun q k v _ => q + k + v
    bert_attn := fun q k v _ => q + k + v
    enc_dec_attn := fun q k v _ => q + k + v + 1
    pff := id
    s_sublayer := idSublayer
    b_sublayer := idSublayer
    e_sublayer := idSublayer
    p_sublayer := idSublayer }

/- ------------------------------------------------------------------ -/
/- run.py load_model (lines 45-62)                                     -/
/- ------------------------------------------------------------------ -/

/-- Result of `load_model` regarding the parameters the returned model holds:
either the freshly constructed (untrained) parameters, or parameters
overwritten by a loaded state dict (state dicts abstracted as `Int`). -/
inductive ModelParams where
  | initial
  | loaded (s : Int)
deriving DecidableEq

/-- Translation of the checkpoint logic of `load_model` (run.py lines 58-62):
when `config.mode != 'train'`, `assert os.path.exists(config.ckpt)` fails fast
if the checkpoint file is missing, then `torch.load(...)['model_state_dict']`
is read from the persisted mapping (KeyError if the key is absent) and loaded
into the model; in train mode the whole block is skipped. -/
def load_model (mode : String) (ckptExists : Bool) (ckpt : List (String × Int)) :
    Except String ModelParams :=
  if mode ≠ "train" then
    if ckptExists = false then
      Except.error "AssertionError"
    else
      match ckpt.find? fun kv => kv.1 = "model_state_dict" with
      | some kv => Except.ok (ModelParams.loaded kv.2)
      | none => Except.error "KeyError: model_state_dict"
  else
    Except.ok ModelParams.initial

/- ------------------------------------------------------------------ -/
/- modules/data.py Dataset and load_dataloader                         -/
/- ------------------------------------------------------------------ -/

/-- Method names defined on `class Dataset` (modules/data.py lines 8-43). -/
def Dataset.methods : List String :=
  ["__init__", "read_dataset", "tokenize_dataset", "__len__", "__getitem__"]

/-- Translation of `Dataset.__init__` (modules/data.py lines 9-13). The two
external effects (loading the tokenizer, reading the json split file) are
abstracted as boolean success parameters; after they succeed, the line
`self.data = self.tokenize_data(self.read_dataset(split))` resolves the
attribute `tokenize_data` against the class methods and raises
AttributeError when it is absent. -/
def Dataset.init (tokenizerOk fileOk : Bool) : Except String Unit :=
  if tokenizerOk = false then
    Except.error "load_tokenizer failed"
  else if fileOk = false then
    Except.error "FileNotFoundError"
  else if Dataset.methods.contains "tokenize_data" then
    Except.ok ()
  else
    Except.error "AttributeError: tokenize_data"

/-- Translation of `load_dataloader` (modules/data.py lines 47-79): it
constructs `Dataset(config, split)` (line 74) before building the DataLoader,
so any error from the constructor propagates; config and split are abstract. -/
def load_dataloader (tokenizerOk fileOk : Bool) (config split : String) :
    Except String String :=
  match Dataset.init tokenizerOk fileOk with
  | Except.ok _ => Except.ok ("DataLoader for " ++ config ++ " " ++ split)
  | Except.error e => Except.error e

/- ------------------------------------------------------------------ -/
/- FusedModel.forward and genreate (model/fused.py 160-196)            -/
/- ------------------------------------------------------------------ -/

/-- Attribute names assigned on self in `FusedModel.__init__`
(model/fused.py lines 127-138). -/
def FusedModel.initAttrs : List String :=
  ["device", "pad_id", "max_len", "bert", "encoder", "decoder", "fc_out",
   "criterion", "outputs"]

/-- Number of rows of `logits.view(-1, self.vocab_size)` in
`FusedModel.forward` (line 193): the decoder runs on
`shifted_labels = shift_right(labels)` (lines 182 and 190), so the logits
tensor has one vocabulary row per position of the shifted labels. -/
def forwardLogitsRows (pad_id : Int) (labels : List (List Int)) : Nat :=
  ((shift_right pad_id labels).map List.length).sum

/-- The flattened loss targets `labels[:, 1:].view(-1)` of line 194. -/
def forwardLossTargets (labels : List (List Int)) : List Int :=
  (labels.map fun row => row.drop 1).flatten

/-- A Python value that is either a bare boolean mask tensor of shape
(B, 1, 1, L) or a one-element tuple. -/
inductive PyVal where
  | tensor (t : List (List (List (List Bool))))
  | tuple1 (v : PyVal)
deriving DecidableEq

/-- Translation of the assignment `e_mask = self.pad_mask(input_ids),` in
`FusedModel.forward` (model/fused.py line 184): the trailing comma makes the
right-hand side a one-element tuple containing the mask tensor. -/
def forward_e_mask (pad_id : Int) (input_ids : List (List Int)) : PyVal :=
  PyVal.tuple1 (PyVal.tensor (pad_mask pad_id input_ids))

/-- Translation of the assignment `d_mask = self.dec_mask(shifted_labels)`
in `FusedModel.forward` (model/fused.py line 185). -/
def forward_d_mask (pad_id : Int) (labels : List (List Int)) :
    List (List (List (List Bool))) :=
  dec_mask pad_id (shift_right pad_id labels)

/-- Parameter list of `Decoder.forward` (model/fused.py line 115). -/
def Decoder.forwardParams : List String :=
  ["x", "memory", "e_mask", "d_mask", "bert_out"]

/-- Positional arguments supplied to `self.decoder(...)` inside the
generation loop of `FusedModel.genreate` (model/fused.py line 170). -/
def genreateDecoderArgs : List String :=
  ["preds", "memory", "e_mask", "d_mask"]

/-- The decoder invocation of one generation step: Python raises a TypeError
when the number of supplied positional arguments differs from the number of
parameters of `Decoder.forward`. -/
def genreateStepDecoderCall : Except String Unit :=
  if genreateDecoderArgs.length = Decoder.forwardParams.length then
    Except.ok ()
  else
    Except.error "TypeError: forward missing 1 required positional argument bert_out"

/-- Translation of the statement `preds[i] = logits` in `FusedModel.genreate`
(model/fused.py line 176): a bare integer index on the 2-D tensor `preds` of
shape (batch_size, max_len) selects along dimension 0, the batch dimension,
so the write replaces batch row i; it is out of bounds unless i < batch_size,
and the (batch, max_len) right-hand side broadcasts into the (max_len,)
destination row only when the batch size is 1. -/
def predsAssign (preds : List (List Int)) (i : Nat) (logits : List (List Int)) :
    Except String (List (List Int)) :=
  if i < preds.length then
    if logits.length = 1 then
      Except.ok (preds.set i logits.headI)
    else
      Except.error "RuntimeError: shape mismatch in broadcast"
  else
    Except.error "IndexError: index out of bounds for dimension 0"

/-- Modelled from the spec (section 4.8, step 3): the buffer update the claim
describes, placing one token per batch element (its last-position arg-max) at
sequence position i of the corresponding output-buffer row and leaving every
other position unchanged. -/
def predsAssignSpec (preds : List (List Int)) (i : Nat) (lastTok : List Int) :
    List (List Int) :=
  (preds.zip lastTok).map fun rt => rt.1.set i rt.2

/- ------------------------------------------------------------------ -/
/- Index helper lemmas                                                 -/
/- ------------------------------------------------------------------ -/

/-- getD of a mapped list at an in-range index. -/
lemma getD_map_lt {α β : Type} (f : α → β) (l : List α) (k : Nat) (d : β) (a : α)
    (hk : k < l.length) :
    (l.map f).getD k d = f (l.getD k a) := by
  rw [List.getD_eq_getElem _ _ (by simpa using hk), List.getD_eq_getElem _ _ hk,
    List.getElem_map]

/-- getD of a zipWith at an index in range of both lists. -/
lemma getD_zipWith_lt {α β γ : Type} (f : α → β → γ) (l1 : List α) (l2 : List β)
    (k : Nat) (d : γ) (a : α) (b : β) (h1 : k < l1.length) (h2 : k < l2.length) :
    (List.zipWith f l1 l2).getD k d = f (l1.getD k a) (l2.getD k b) := by
  rw [List.getD_eq_getElem _ _ (by simp [List.length_zipWith]; omega),
    List.getD_eq_getElem _ _ h1, List.getD_eq_getElem _ _ h2, List.getElem_zipWith]

/-- getD of `List.range` at an in-range index. -/
lemma getD_range_lt (n k : Nat) (d : Nat) (hk : k < n) :
    (List.range n).getD k d = k := by
  rw [List.getD_eq_getElem _ _ (by simpa using hk), List.getElem_range]

/- ------------------------------------------------------------------ -/
/- Theorems for C7, C9, C10                                            -/
/- ------------------------------------------------------------------ -/

/-- Row k of `shift_right` as a function of row k of the input. -/
lemma shift_right_getD (pad_id : Int) (labels : List (List Int)) (k : Nat) :
    (shift_right pad_id labels).getD k [] =
      match labels.getD k [] with
      | [] => ([] : List Int)
      | _ :: _ => pad_id :: (labels.getD k []).dropLast := by
  induction labels generalizing k with
  | nil => cases k <;> rfl
  | cons r rs ih =>
    cases k with
    | zero => cases r <;> rfl
    | succ n => simpa [shift_right, List.getD_cons_succ] using ih n

/-- C7: for every label tensor whose row k is the nonempty sequence
[t0, ..., tn], `shift_right` returns at row k the sequence
[pad_id, t0, ..., t(n-1)] (the pad id followed by the row without its last
element), and dropping the first position of the shifted row recovers the
original row minus its last token. -/
theorem shift_right_spec (pad_id : Int) (labels : List (List Int)) (k : Nat)
    (hne : labels.getD k [] ≠ []) :
    (shift_right pad_id labels).getD k [] = pad_id :: (labels.getD k []).dropLast ∧
    ((shift_right pad_id labels).getD k []).drop 1 = (labels.getD k []).dropLast := by
  have hsh := shift_right_getD pad_id labels k
  cases h : labels.getD k [] with
  | nil => exact absurd h hne
  | cons a as =>
    rw [h] at hsh
    exact ⟨hsh, by rw [hsh]; rfl⟩

/-- Witness for `shift_right_spec` at pad_id = 0, labels = [[5, 6, 7]], k = 0. -/
theorem shift_right_spec_witness :
    (shift_right 0 [[5, 6, 7]]).getD 0 [] = 0 :: ([5, 6, 7] : List Int).dropLast ∧
    ((shift_right 0 [[5, 6, 7]]).getD 0 []).drop 1 = ([5, 6, 7] : List Int).dropLast := by
  have h := shift_right_spec 0 [[5, 6, 7]] 0 (by decide)
  simpa using h

/-- C9: `load_model` loads persisted parameter state exactly when the mode is
not train: in test and inference modes it fails fast when the checkpoint file
is missing, and otherwise loads the mapping's model_state_dict entry into the
model; in train mode no checkpoint is required and none is loaded. -/
theorem load_model_spec (ckpt : List (String × Int)) (s : Int) (ex : Bool) :
    load_model "train" ex ckpt = Except.ok ModelParams.initial ∧
    load_model "test" false ckpt = Except.error "AssertionError" ∧
    load_model "inference" false ckpt = Except.error "AssertionError" ∧
    ((ckpt.find? fun kv => kv.1 = "model_state_dict") = some ("model_state_dict", s) →
      load_model "test" true ckpt = Except.ok (ModelParams.loaded s) ∧
      load_model "inference" true ckpt = Except.ok (ModelParams.loaded s)) := by
  refine ⟨rfl, rfl, rfl, fun h => ⟨?_, ?_⟩⟩ <;>
    simp [load_model, h]

/-- Witness for `load_model_spec` at a concrete checkpoint mapping. -/
theorem load_model_spec_witness :
    load_model "train" true [("model_state_dict", 7)] = Except.ok ModelParams.initial ∧
    load_model "test" true [("model_state_dict", 7)] = Except.ok (ModelParams.loaded 7) := by
  have h := load_model_spec [("model_state_dict", 7)] 7 true
  exact ⟨h.1, (h.2.2.2 (by decide)).1⟩

/-- C10: for every config and split (and whatever the external tokenizer and
file steps do), `load_dataloader` raises an error before returning a
dataloader, because `Dataset.__init__` calls `self.tokenize_data`, which is
not among the methods the class defines (the defined method is
`tokenize_dataset`); hence no dataloader is ever produced. -/
theorem load_dataloader_always_errors (tokenizerOk fileOk : Bool) (config split : String) :
    (∃ e, load_dataloader tokenizerOk fileOk config split = Except.error e) ∧
    Dataset.methods.contains "tokenize_data" = false ∧
    Dataset.methods.contains "tokenize_dataset" = true := by
  refine ⟨?_, by decide, by decide⟩
  cases tokenizerOk <;> cases fileOk <;>
    first
    | exact ⟨"load_tokenizer failed", rfl⟩
    | exact ⟨"FileNotFoundError", rfl⟩
    | exact ⟨"AttributeError: tokenize_data", rfl⟩

/-- C8: in every encoder-layer forward pass the self branch s and the bert
branch b are both computed from the same pre-fusion input x and the fused
output is residual + 0.5 * s + 0.5 * b (the feed-forward residual block then
runs on that fused value); with the other branch held fixed, replacing one
branch's output by zero changes the fused result by exactly half of that
branch's contribution. -/
theorem encoder_layer_fusion_spec (l : EncoderLayerM) (x : Rat) (mask : Bool)
    (bert_out : Rat) :
    l.fusion x mask bert_out =
      x + (l.s_sublayer.forward x fun y => l.self_attn y y y mask) * (1 / 2)
        + (l.b_sublayer.forward x fun y => l.bert_attn y bert_out bert_out mask) * (1 / 2) ∧
    l.forward x mask bert_out =
      l.fusion x mask bert_out + l.p_sublayer.forward (l.fusion x mask bert_out) l.pff ∧
    l.fusion x mask bert_out - l.zeroSelf.fusion x mask bert_out =
      (l.s_sublayer.forward x fun y => l.self_attn y y y mask) * (1 / 2) ∧
    l.fusion x mask bert_out - l.zeroBert.fusion x mask bert_out =
      (l.b_sublayer.forward x fun y => l.bert_attn y bert_out bert_out mask) * (1 / 2) := by
  refine ⟨rfl, rfl, ?_, ?_⟩ <;>
    simp [EncoderLayerM.fusion, EncoderLayerM.zeroSelf, EncoderLayerM.zeroBert,
      SublayerM.forward]

/-- C1: the implemented decoder layer computes the encoder-memory branch e
with the bert branch's modules (`self.b_sublayer`, `self.bert_attn`) instead
of the dedicated `enc_dec_attn` module and `e_sublayer` wrapper it
constructs; on a layer whose enc_dec_attn differs from bert_attn the
implemented forward pass therefore differs from the one the claim
describes. -/
theorem decoder_layer_e_branch_bug :
    sampleDecoderLayer.forward 0 1 true true 0 = 2 ∧
    sampleDecoderLayer.forwardSpec 0 1 true true 0 = 3 ∧
    sampleDecoderLayer.forward 0 1 true true 0 ≠
      sampleDecoderLayer.forwardSpec 0 1 true true 0 := by
  refine ⟨?_, ?_, ?_⟩ <;>
    norm_num [DecoderLayerM.forward, DecoderLayerM.forwardSpec, sampleDecoderLayer,
      idSublayer, SublayerM.forward]

/-- C2: the training loss of `FusedModel.forward` is not computed as the
claim states: `self.vocab_size` is read at line 193 but never assigned in
`__init__` (an AttributeError), the loss targets are `labels[:, 1:]` rather
than the original unshifted labels, and for a batch with one row of length 3
the criterion would receive 3 logits positions but only 2 target positions, a
fatal shape mismatch. -/
theorem fused_forward_loss_bug :
    FusedModel.initAttrs.contains "vocab_size" = false ∧
    forwardLogitsRows 0 [[5, 6, 7]] = 3 ∧
    (forwardLossTargets [[5, 6, 7]]).length = 2 ∧
    forwardLossTargets [[5, 6, 7]] ≠ [5, 6, 7] := by
  refine ⟨?_, ?_, ?_, ?_⟩ <;> decide

/-- C3: the generation loop never passes bert_out to the decoder: the call at
line 170 supplies four positional arguments against the five parameters of
`Decoder.forward`, omitting bert_out, so every decoding step raises a
TypeError instead of threading the pretrained-encoder output through the
decoder layers. -/
theorem genreate_missing_bert_out_bug :
    genreateStepDecoderCall =
      Except.error "TypeError: forward missing 1 required positional argument bert_out" ∧
    "bert_out" ∈ Decoder.forwardParams ∧ "bert_out" ∉ genreateDecoderArgs := by
  refine ⟨rfl, ?_, ?_⟩ <;> decide

/-- C4: the generation step does not write the arg-max token at sequence
position i of each batch row: `preds[i] = logits` indexes the batch
dimension, so already with batch size 1 and step i = 1 the write is an
IndexError instead of the update the claim describes (which would turn the
buffer [[0, 0, 0]] into [[0, 7, 0]] when the chosen token is 7). -/
theorem genreate_preds_write_bug :
    predsAssign [[0, 0, 0]] 1 [[7, 8, 9]] =
      Except.error "IndexError: index out of bounds for dimension 0" ∧
    predsAssignSpec [[0, 0, 0]] 1 [7] = [[0, 7, 0]] := by
  exact ⟨rfl, by decide⟩

/-- C5: the encoder-side mask bound in the training forward pass is not the
bare padding-mask tensor: the trailing comma at line 184 wraps
pad_mask(input_ids) in a one-element tuple, witnessed here on
input_ids = [[1, 2, 0]] with pad id 0; the d_mask half of the claim does
match the code, which computes the causal mask from the shifted target. -/
theorem fused_forward_e_mask_bug :
    forward_e_mask 0 [[1, 2, 0]] =
      PyVal.tuple1 (PyVal.tensor (pad_mask 0 [[1, 2, 0]])) ∧
    forward_e_mask 0 [[1, 2, 0]] ≠ PyVal.tensor (pad_mask 0 [[1, 2, 0]]) ∧
    forward_d_mask 0 [[5, 6, 7]] = dec_mask 0 (shift_right 0 [[5, 6, 7]]) := by
  exact ⟨rfl, by decide, rfl⟩

/-- C6: for every rectangular token-id tensor x of shape (batch, L),
`dec_mask` produces a boolean tensor of shape (batch, 1, L, L) whose entry at
(b, 0, i, j) is true exactly when j ≤ i and x[b, j] is not the pad id. -/
theorem dec_mask_spec (pad_id : Int) (x : List (List Int)) (L b i j : Nat)
    (hL : ∀ row ∈ x, row.length = L)
    (hb : b < x.length) (hi : i < L) (hj : j < L) :
    (dec_mask pad_id x).length = x.length ∧
    ((dec_mask pad_id x).getD b []).length = 1 ∧
    (((dec_mask pad_id x).getD b []).getD 0 []).length = L ∧
    ((((dec_mask pad_id x).getD b []).getD 0 []).getD i []).length = L ∧
    (((((dec_mask pad_id x).getD b []).getD 0 []).getD i []).getD j false = true ↔
      j ≤ i ∧ (x.getD b []).getD j pad_id ≠ pad_id) := by
  have hLhead : x.headI.length = L := by
    cases x with
    | nil => simp at hb
    | cons r rs => exact hL r (List.mem_cons_self r rs)
  have hrowL : (x.getD b []).length = L := by
    rw [List.getD_eq_getElem _ _ hb]
    exact hL _ (List.getElem_mem hb)
  have hdm : dec_mask pad_id x =
      broadcastAnd (pad_mask pad_id x) (subsequent_mask L) := by
    simp only [dec_mask]
    rw [hLhead]
  have hpmb : b < (pad_mask pad_id x).length := by simpa [pad_mask] using hb
  have hpmrow : (pad_mask pad_id x).getD b [] =
      [[(x.getD b []).map fun t => decide (t ≠ pad_id)]] :=
    getD_map_lt _ x b [] [] hb
  have h1 : (dec_mask pad_id x).getD b [] =
      [(subsequent_mask L).map fun subRow =>
        List.zipWith and ((pad_mask pad_id x).getD b []).headI.headI subRow] := by
    rw [hdm]
    exact getD_map_lt _ _ b [] [] hpmb
  have h2 : ((dec_mask pad_id x).getD b []).getD 0 [] =
      (subsequent_mask L).map fun subRow =>
        List.zipWith and ((x.getD b []).map fun t => decide (t ≠ pad_id)) subRow := by
    rw [h1, hpmrow]
    rfl
  have hsubL : (subsequent_mask L).length = L := by simp [subsequent_mask]
  have h3 : (((dec_mask pad_id x).getD b []).getD 0 []).getD i [] =
      List.zipWith and ((x.getD b []).map fun t => decide (t ≠ pad_id))
        ((List.range L).map fun j => decide (j ≤ i)) := by
    rw [h2, getD_map_lt _ _ i [] [] (by rw [hsubL]; exact hi)]
    show List.zipWith and _ ((subsequent_mask L).getD i []) = _
    rw [subsequent_mask, getD_map_lt _ _ i [] 0 (by simpa using hi),
      getD_range_lt L i 0 hi]
  have hmrowL : (((x.getD b []).map fun t => decide (t ≠ pad_id))).length = L := by
    simpa using hrowL
  refine ⟨?_, ?_, ?_, ?_, ?_⟩
  · rw [hdm]; simp [broadcastAnd, pad_mask]
  · rw [h1]; rfl
  · rw [h2]; simpa using hsubL
  · rw [h3, List.length_zipWith, hmrowL]; simp
  · rw [h3, getD_zipWith_lt and _ _ j false false false (by rw [hmrowL]; exact hj)
      (by simpa using hj)]
    rw [getD_map_lt _ _ j false pad_id (by rw [hrowL]; exact hj),
      getD_map_lt _ _ j false 0 (by simpa using hj), getD_range_lt L j 0 hj]
    simp [and_comm]

/-- Witness for `dec_mask_spec` at pad id 0, x = [[1, 0, 2]], b = 0, i = 1,
j = 0 (a key position that is both allowed causally and non-pad). -/
theorem dec_mask_spec_witness :
    (dec_mask 0 [[1, 0, 2]]).length = 1 ∧
    ((dec_mask 0 [[1, 0, 2]]).getD 0 []).length = 1 ∧
    (((dec_mask 0 [[1, 0, 2]]).getD 0 []).getD 0 []).length = 3 ∧
    ((((dec_mask 0 [[1, 0, 2]]).getD 0 []).getD 0 []).getD 1 []).length = 3 ∧
    (((((dec_mask 0 [[1, 0, 2]]).getD 0 []).getD 0 []).getD 1 []).getD 0 false = true ↔
      0 ≤ 1 ∧ (([[1, 0, 2]] : List (List Int)).getD 0 []).getD 0 0 ≠ 0) :=
  dec_mask_spec 0 [[1, 0, 2]] 3 0 1 0 (by decide) (by decide) (by decide) (by decide)

end NMTBert
